import Mathlib

/-!
Verification development for the mecoda-minka client library
(`src/mecoda_minka/mecoda_minka.py`, `src/mecoda_minka/models.py`).

The Python source is shallowly embedded: pure functions become Lean
functions, Python dictionaries become association lists over a JSON-like
value type, exceptions become `Except String`, and the paginated HTTP
retrieval loop of `_request` becomes a fuel-indexed recursion over an
abstract page server.  All definitions are executable.
-/

/-! ## Python string primitives

The Lean core `String` operations (`replace`, `trim`, `splitOn`, ...) do
not reduce well in the kernel, so the Python `str` methods used by the
source are modelled directly on `List Char`.  Only the ASCII plane is
treated by the case-conversion helpers; the vocabulary and URL parameters
of the source are all ASCII.
-/

/-- Replacement of every non-overlapping occurrence of `pat` (left to
right), as Python `str.replace`.  Fuel-indexed; called with the length of
the subject string, which bounds the number of steps. -/
def replaceFuel (pat repl : List Char) : Nat → List Char → List Char
  | _, [] => []
  | 0, s => s
  | fuel + 1, c :: cs =>
    if pat ≠ [] ∧ pat.isPrefixOf (c :: cs) then
      repl ++ replaceFuel pat repl fuel ((c :: cs).drop pat.length)
    else
      c :: replaceFuel pat repl fuel cs

/-- Python `s.replace(pat, repl)` (for nonempty `pat`, the only way the
source calls it). -/
def pyReplace (s pat repl : String) : String :=
  ⟨replaceFuel pat.data repl.data s.data.length s.data⟩

/-- Whitespace characters recognised by Python `str.strip()` (ASCII part). -/
def isPyWhitespace (c : Char) : Bool :=
  c = ' ' || c = '\t' || c = '\n' || c = '\r' || c = '\x0b' || c = '\x0c'

/-- Python `s.strip()`. -/
def pyStrip (s : String) : String :=
  ⟨((s.data.dropWhile isPyWhitespace).reverse.dropWhile isPyWhitespace).reverse⟩

/-- Splitting on a single separator character, as Python `s.split(sep)`
with a one-character separator (the only form the source uses:
`ancestry_string.split("/")` and `location.split(",")`). -/
def splitCharAux (sep : Char) : List Char → List Char → List (List Char)
  | [], acc => [acc.reverse]
  | c :: cs, acc =>
    if c = sep then acc.reverse :: splitCharAux sep cs []
    else splitCharAux sep cs (c :: acc)

/-- Python `s.split(sep)` for a one-character separator. -/
def pySplit (s : String) (sep : Char) : List String :=
  (splitCharAux sep s.data []).map String.mk

/-- Membership of a one-character needle, Python `"T" in s`. -/
def pyContainsChar (s : String) (c : Char) : Bool :=
  s.data.contains c

def isAsciiUpperChar (c : Char) : Bool :=
  decide (65 ≤ c.toNat) && decide (c.toNat ≤ 90)

def isAsciiLowerChar (c : Char) : Bool :=
  decide (97 ≤ c.toNat) && decide (c.toNat ≤ 122)

def isAsciiAlphaChar (c : Char) : Bool :=
  isAsciiUpperChar c || isAsciiLowerChar c

def asciiUpperChar (c : Char) : Char :=
  if isAsciiLowerChar c then Char.ofNat (c.toNat - 32) else c

def asciiLowerChar (c : Char) : Char :=
  if isAsciiUpperChar c then Char.ofNat (c.toNat + 32) else c

/-- ASCII-plane case folding of a string (used to state the
case-insensitivity claims). -/
def asciiLowerStr (s : String) : String :=
  ⟨s.data.map asciiLowerChar⟩

/-- All characters of a string lie in the ASCII plane. -/
def allAscii (s : String) : Bool :=
  s.data.all (fun c => decide (c.toNat < 128))

/-- Python `str.title()` on the ASCII plane: the first character of every
run of letters is uppercased and the remaining letters of the run are
lowercased.  (Python delimits words by uncased characters; for ASCII
input that coincides with non-letters.) -/
def pyTitleAux : Bool → List Char → List Char
  | _, [] => []
  | prevAlpha, c :: cs =>
    if isAsciiAlphaChar c then
      (if prevAlpha then asciiLowerChar c else asciiUpperChar c) :: pyTitleAux true cs
    else
      c :: pyTitleAux false cs

/-- Python `taxon.title()` (ASCII plane). -/
def pyTitle (s : String) : String :=
  ⟨pyTitleAux false s.data⟩

def isDigitChar (c : Char) : Bool :=
  decide (48 ≤ c.toNat) && decide (c.toNat ≤ 57)

def digitsToNat : List Char → Nat → Nat
  | [], acc => acc
  | c :: cs, acc => digitsToNat cs (acc * 10 + (c.toNat - 48))

/-- Python `int(s)` on a string: optional surrounding whitespace, an
optional single sign, then a nonempty digit string; anything else raises
`ValueError` (`none` here).  (Python additionally allows underscore
digit-group separators, which never occur in the slash-delimited ancestry
ids this models.) -/
def pyIntOfString (s : String) : Option Int :=
  match (pyStrip s).data with
  | [] => none
  | c :: cs =>
    if c = '-' then
      if cs ≠ [] ∧ cs.all isDigitChar then some (-(digitsToNat cs 0 : Int)) else none
    else if c = '+' then
      if cs ≠ [] ∧ cs.all isDigitChar then some ((digitsToNat cs 0 : Int)) else none
    else
      if (c :: cs).all isDigitChar then some ((digitsToNat (c :: cs) 0 : Int)) else none

/-- Two-digit decimal field in an inclusive range (helper for the
`strptime` format checks). -/
def twoDigitField (a b : Char) (lo hi : Nat) : Bool :=
  isDigitChar a && isDigitChar b &&
    (let v := (a.toNat - 48) * 10 + (b.toNat - 48)
     decide (lo ≤ v) && decide (v ≤ hi))

/-- Check of the `strptime` format `%Y-%m-%d %H:%M:%S` used by the record
normalizer for `created_at`/`updated_at`/`observed_on` (zero-padded
fields, calendar-range checks on month/day and clock ranges on
hour/minute/second; `strptime` also accepts unpadded fields, which the
platform never emits and no claim exercises). -/
def matchesDateTimeFormat (s : String) : Bool :=
  match s.data with
  | [y1, y2, y3, y4, d1, m1, m2, d2, dd1, dd2, sp, h1, h2, c1, mi1, mi2, c2, s1, s2] =>
    isDigitChar y1 && isDigitChar y2 && isDigitChar y3 && isDigitChar y4 &&
    d1 = '-' && d2 = '-' && sp = ' ' && c1 = ':' && c2 = ':' &&
    twoDigitField m1 m2 1 12 && twoDigitField dd1 dd2 1 31 &&
    twoDigitField h1 h2 0 23 && twoDigitField mi1 mi2 0 59 && twoDigitField s1 s2 0 61
  | _ => false

/-- Check of the `strptime` format `%Y-%m-%d`. -/
def matchesDateFormat (s : String) : Bool :=
  match s.data with
  | [y1, y2, y3, y4, d1, m1, m2, d2, dd1, dd2] =>
    isDigitChar y1 && isDigitChar y2 && isDigitChar y3 && isDigitChar y4 &&
    d1 = '-' && d2 = '-' &&
    twoDigitField m1 m2 1 12 && twoDigitField dd1 dd2 1 31
  | _ => false

/-- Python `float(s)` accepts this literal (model: optional sign, digits
with an optional single decimal point carrying digits on at least one
side; `float` also accepts exponents and `inf`/`nan`, which no claim
exercises). -/
def pyFloatLitOk (s : String) : Bool :=
  let t := (pyStrip s).data
  let t := match t with
    | c :: cs => if c = '-' ∨ c = '+' then cs else c :: cs
    | [] => []
  match splitCharAux '.' t [] with
  | [a] => a ≠ [] && a.all isDigitChar
  | [a, b] => (a ≠ [] || b ≠ []) && a.all isDigitChar && b.all isDigitChar
  | _ => false

/-! ## models.py -/

/-- Closed vocabulary `TAXONS` of coarse taxonomic groups
(`models.py`). -/
def TAXONS : List String :=
  ["Chromista", "Protozoa", "Animalia", "Mollusca", "Arachnida", "Insecta",
   "Aves", "Mammalia", "Amphibia", "Reptilia", "Actinopterygii", "Fungi",
   "Plantae", "Unknown", "Cnidaria", "Annelida", "Platyhelminthes",
   "Echinodermata", "Bryozoa", "Porifera", "Elasmobranchii", "Crustacea",
   "Ctenophora"]

/-- Fixed id-to-name table `ICONIC_TAXON` (`models.py`). -/
def ICONIC_TAXON : List (Int × String) :=
  [(1, "life"), (2, "animalia"), (3, "actinopterygii"), (5, "aves"),
   (6, "reptilia"), (7, "amphibia"), (8, "mammalia"), (9, "arachnida"),
   (11, "insecta"), (12, "plantae"), (13, "fungi"), (14, "protozoa"),
   (15, "mollusca"), (16, "chromista"), (50, "cnidaria"), (51, "annelida"),
   (52, "platyhelminthes"), (53, "echinodermata"), (55, "bryozoa"),
   (56, "porifera"), (177, "elasmobranchii"), (240789, "crustacea"),
   (254021, "ctenophora")]

/-- Pydantic model `Photo` (`models.py`).  All fields optional with `None`
defaults. -/
structure Photo where
  id : Option Int := none
  large_url : Option String := none
  medium_url : Option String := none
  small_url : Option String := none
  license_photo : Option String := none
  attribution : Option String := none
deriving DecidableEq, Repr

/-- Pydantic model `Observation` (`models.py`), fields in declaration
order.  `id` is required; everything else defaults to `None` (`photos` to
`[]`).  Datetime/date/float-typed fields are carried as opaque strings
here: no claim computes with their values, only with their presence.
Note the declared field `identificators` — the model has no `identifiers`
and no `device` field. -/
structure Observation where
  id : Int
  captive : Option Bool := none
  created_at : Option String := none
  updated_at : Option String := none
  observed_on : Option String := none
  time_observed_at : Option String := none
  description : Option String := none
  iconic_taxon : Option String := none
  taxon_id : Option Int := none
  taxon_name : Option String := none
  taxon_rank : Option String := none
  taxon_ancestry : Option String := none
  latitude : Option String := none
  longitude : Option String := none
  obscured : Option Bool := none
  place_name : Option String := none
  quality_grade : Option String := none
  user_id : Option Int := none
  user_login : Option String := none
  license_obs : Option String := none
  photos : List Photo := []
  identifications_count : Option Int := none
  identificators : Option String := none
  num_identification_agreements : Option Int := none
  num_identification_disagreements : Option Int := none
deriving DecidableEq, Repr

/-! ## `_build_url` (mecoda_minka.py, lines 268-344)

The source accumulates a list `args` of query fragments and joins them
with `"&"`; the fragments for the `introduced` flag are the compound
strings `"introduced=true&project_id=…"` / `"introduced=true&place_id=…"`.
Here every fragment is carried as a `(name, value)` pair and the compound
fragments as their two constituent pairs, so that
`String.intercalate "&"` over the rendered pairs yields exactly the string
the Python code builds, while the parameter multiset stays directly
inspectable. -/

structure UrlArgs where
  query : Option String := none
  id_project : Option Nat := none
  id_obs : Option Nat := none
  user : Option String := none
  taxon : Option String := none
  taxon_id : Option Nat := none
  place_id : Option Nat := none
  introduced : Option Bool := none
  year : Option Nat := none
  starts_on : Option String := none
  ends_on : Option String := none
  created_on : Option String := none
  created_d1 : Option String := none
  created_d2 : Option String := none
  grade : Option String := none
  id_above : Option Nat := none
  id_below : Option Nat := none
  updated_since : Option String := none

/-- One optional atomic query fragment: `args.append(f"k={v}")` guarded by
`if v is not None`. -/
def optPart {α : Type} (o : Option α) (k : String) (f : α → String) :
    List (String × String) :=
  match o with
  | some a => [(k, f a)]
  | none => []

/-- Fragment(s) for `id_project`: with `introduced is True` the source
appends the compound `f"introduced=true&project_id={id_project}"`. -/
def projectPart (idProject : Option Nat) (introduced : Option Bool) :
    List (String × String) :=
  match idProject with
  | some n =>
    if introduced = some true then [("introduced", "true"), ("project_id", toString n)]
    else [("project_id", toString n)]
  | none => []

/-- Fragment(s) for `place_id`: with `introduced is True` the source
appends the compound `f"introduced=true&place_id={place_id}"`. -/
def placePart (placeId : Option Nat) (introduced : Option Bool) :
    List (String × String) :=
  match placeId with
  | some n =>
    if introduced = some true then [("introduced", "true"), ("place_id", toString n)]
    else [("place_id", toString n)]
  | none => []

/-- Query-parameter list built by `_build_url`, in source append order.
Raises `ValueError("Not a valid taxonomy")` when a supplied textual taxon,
title-cased, is not in `TAXONS`. -/
def buildParams (a : UrlArgs) : Except String (List (String × String)) := do
  let psTaxon ←
    match a.taxon with
    | none => pure ([] : List (String × String))
    | some t =>
      let t2 := pyTitle t
      if TAXONS.contains t2 then pure [("iconic_taxa", t2)]
      else throw "Not a valid taxonomy"
  return optPart a.id_obs "id" toString ++
    projectPart a.id_project a.introduced ++
    optPart a.user "user_login" id ++
    optPart a.created_on "created_on" id ++
    optPart a.created_d1 "created_d1" id ++
    optPart a.created_d2 "created_d2" id ++
    optPart a.starts_on "d1" id ++
    optPart a.ends_on "d2" id ++
    optPart a.query "q" (fun q => "\"" ++ q ++ "\"") ++
    psTaxon ++
    placePart a.place_id a.introduced ++
    optPart a.year "year" toString ++
    optPart a.taxon_id "taxon_id" toString ++
    optPart a.grade "quality_grade" id ++
    optPart a.id_above "id_above" toString ++
    optPart a.id_below "id_below" toString ++
    optPart a.updated_since "updated_since" id

def API_PATH : String := "https://api.minka-sdg.org/v1"

/-- URL string returned by `_build_url`:
`f'{base_url}?{"&".join(args)}&per_page=200'`.  `_build_url` performs no
network request: it is a pure string computation. -/
def buildUrl (a : UrlArgs) : Except String String :=
  (buildParams a).map (fun ps =>
    API_PATH ++ "/observations?" ++
      String.intercalate "&" (ps.map (fun kv => kv.1 ++ "=" ++ kv.2)) ++
      "&per_page=200")

/-- Number of query parameters named `k` in a parameter list. -/
def countName (k : String) (ps : List (String × String)) : Nat :=
  ps.countP (fun kv => kv.1 == k)

/-! ## A JSON-like value model for raw observation payloads

`_process_observation_data` mutates a Python `Dict[str, Any]` in place and
finally validates it with `Observation(**data)`.  The dictionary is
modelled as an insertion-ordered association list with unique keys; the
values by `JVal`.  Python floats are carried as their source literal in
`JVal.real` — no claim computes with a float value. -/

inductive JVal where
  | null : JVal
  | bool : Bool → JVal
  | int : Int → JVal
  | real : String → JVal
  | str : String → JVal
  | list : List JVal → JVal
  | obj : List (String × JVal) → JVal

abbrev PyDict := List (String × JVal)

/-- Python `data.get(k)` (also used for nested dicts). -/
def dictGet (d : PyDict) (k : String) : Option JVal :=
  (d.find? (fun kv => kv.1 == k)).map (fun kv => kv.2)

/-- Python `k in data`. -/
def dictHasKey (d : PyDict) (k : String) : Bool :=
  (d.find? (fun kv => kv.1 == k)).isSome

/-- Python `data[k] = v`: replaces the value of an existing key in place,
appends a new key at the end (insertion order, as Python dicts). -/
def dictSet (d : PyDict) (k : String) (v : JVal) : PyDict :=
  if dictHasKey d k then d.map (fun kv => if kv.1 == k then (k, v) else kv)
  else d ++ [(k, v)]

/-- Python truthiness of a value.  A float literal is falsy exactly when it
denotes zero; its literal then consists of sign/zero/point characters
only. -/
def jTruthy : JVal → Bool
  | .null => false
  | .bool b => b
  | .int n => n != 0
  | .real s => !((pyStrip s).data.all (fun c => c = '0' || c = '.' || c = '-' || c = '+'))
  | .str s => s ≠ ""
  | .list xs => !xs.isEmpty
  | .obj kvs => !kvs.isEmpty

/-- Python `bool(data.get(k))`. -/
def truthyKey (d : PyDict) (k : String) : Bool :=
  match dictGet d k with
  | some v => jTruthy v
  | none => false

/-! ## `_process_observation_data` (mecoda_minka.py, lines 347-470)

Each block of the source function becomes one section below, applied in
source order.  Sections whose only failure modes are swallowed by a
`try/except: pass` in the source are total; the taxon, place, photos,
user, description and identifications blocks are not guarded and can
raise, so they return `Except`. -/

/-- Date block (lines 352-361): on a truthy string field, `"T"` is
replaced by a space and the result parsed with
`strptime("%Y-%m-%d %H:%M:%S")`; any failure (including a non-string
value) is swallowed by the bare `except` and leaves the field unchanged. -/
def dateFieldStep (d : PyDict) (k : String) : PyDict :=
  match dictGet d k with
  | some v =>
    if jTruthy v then
      match v with
      | .str s =>
        let s2 := pyReplace s "T" " "
        if matchesDateTimeFormat s2 then dictSet d k (.str s2) else d
      | _ => d
    else d
  | none => d

def datesSection (d : PyDict) : PyDict :=
  dateFieldStep (dateFieldStep d "created_at") "updated_at"

/-- `observed_on` block (lines 363-375): with a `"T"` the value is parsed
as a datetime and reduced to its date part; otherwise parsed with
`strptime("%Y-%m-%d")`; all failures swallowed. -/
def observedOnSection (d : PyDict) : PyDict :=
  match dictGet d "observed_on" with
  | some v =>
    if jTruthy v then
      match v with
      | .str s =>
        if pyContainsChar s 'T' then
          let s2 := pyReplace s "T" " "
          if matchesDateTimeFormat s2 then
            dictSet d "observed_on" (.str ⟨s2.data.take 10⟩)
          else d
        else
          if matchesDateFormat s then dictSet d "observed_on" (.str s) else d
      | _ => d
    else d
  | none => d

/-- `captive` block (lines 378-381): the exact strings `"false"`/`"true"`
become booleans. -/
def captiveSection (d : PyDict) : PyDict :=
  match dictGet d "captive" with
  | some (.str s) =>
    if s = "false" then dictSet d "captive" (.bool false)
    else if s = "true" then dictSet d "captive" (.bool true)
    else d
  | _ => d

/-- Device block (lines 384-385): only when the key
`oauth_application_id` is present; the sentinel value `2` maps to
`"app"`, everything else to `"web"`. -/
def deviceSection (d : PyDict) : PyDict :=
  if dictHasKey d "oauth_application_id" then
    let isApp := match dictGet d "oauth_application_id" with
      | some (.int n) => n == 2
      | _ => false
    dictSet d "device" (.str (if isApp then "app" else "web"))
  else d

/-- Place block (lines 388-390): unguarded; `place_guess.replace` on a
present non-null non-string raises `AttributeError`. -/
def placeSection (d : PyDict) : Except String PyDict :=
  match dictGet d "place_guess" with
  | none => .ok d
  | some .null => .ok d
  | some (.str s) =>
    .ok (dictSet d "place_name" (.str (pyStrip (pyReplace s "\r\n" " "))))
  | some _ => .error "AttributeError"

/-- Python `int(v)` applied to a dictionary value. -/
def pyIntOfVal : JVal → Except String Int
  | .int n => .ok n
  | .bool b => .ok (if b then 1 else 0)
  | .str s =>
    match pyIntOfString s with
    | some n => .ok n
    | none => .error "ValueError"
  | .real s =>
    match pyIntOfString ⟨(pyStrip s).data.takeWhile (fun c => c ≠ '.')⟩ with
    | some n => .ok n
    | none => .error "ValueError"
  | _ => .error "TypeError"

/-- Taxon block (lines 392-398): unguarded.  On a truthy `taxon` dict the
four derived keys are always (re)assigned:
`taxon_id = int(taxon["id"]) if taxon.get("id") else None` — so a truthy
non-numeric id raises `ValueError` — and name/rank/ancestry are copied
via `.get`, keeping whatever partial data the block carries. -/
def taxonSection (d : PyDict) : Except String PyDict :=
  match dictGet d "taxon" with
  | some tv =>
    if jTruthy tv then
      match tv with
      | .obj tkvs => do
        let tid ←
          match dictGet tkvs "id" with
          | some idv =>
            if jTruthy idv then (pyIntOfVal idv).map (fun n => JVal.int n)
            else pure JVal.null
          | none => pure JVal.null
        let d1 := dictSet d "taxon_id" tid
        let d2 := dictSet d1 "taxon_name" ((dictGet tkvs "name").getD .null)
        let d3 := dictSet d2 "taxon_rank" ((dictGet tkvs "rank").getD .null)
        pure (dictSet d3 "taxon_ancestry" ((dictGet tkvs "ancestry").getD .null))
      | _ => .error "AttributeError"
    else .ok d
  | none => .ok d

/-- Python `str(v)` for the values that can reach the f-string of the
location block (scalars; containers never carry coordinates in any
claim). -/
def pyStrOfVal : JVal → String
  | .null => "None"
  | .bool b => if b then "True" else "False"
  | .int n => toString n
  | .real s => s
  | .str s => s
  | .list _ => "<list>"
  | .obj _ => "<dict>"

/-- Location-from-coordinates block (lines 401-405): builds
`f"{latitude},{longitude}"`; the f-string cannot fail. -/
def locFromLatLngSection (d : PyDict) : PyDict :=
  if truthyKey d "latitude" && truthyKey d "longitude" && !(truthyKey d "location") then
    match dictGet d "latitude", dictGet d "longitude" with
    | some la, some lo => dictSet d "location" (.str (pyStrOfVal la ++ "," ++ pyStrOfVal lo))
    | _, _ => d
  else d

/-- Coordinates-from-location block (lines 408-414):
`lat, lon = map(float, location.split(","))` inside a
`try/except (ValueError, AttributeError): pass` — a malformed or
non-string location leaves both coordinates unchanged. -/
def latLngFromLocSection (d : PyDict) : PyDict :=
  if truthyKey d "location" && (!(truthyKey d "latitude") || !(truthyKey d "longitude")) then
    match dictGet d "location" with
    | some (.str s) =>
      match pySplit s ',' with
      | [p1, p2] =>
        if pyFloatLitOk p1 && pyFloatLitOk p2 then
          dictSet (dictSet d "latitude" (.real (pyStrip p1))) "longitude"
            (.real (pyStrip p2))
        else d
      | _ => d
    | _ => d
  else d

/-- One canonical photo dict built in the photos block (lines 424-433):
size-variant URLs derived from the base URL by replacing the
`"/square"` token. -/
def photoFromData (pkvs : List (String × JVal)) (baseUrl : String) : JVal :=
  .obj [("id", (dictGet pkvs "id").getD .null),
        ("large_url", .str (pyReplace baseUrl "/square" "/large")),
        ("medium_url", .str (pyReplace baseUrl "/square" "/medium")),
        ("small_url", .str (pyReplace baseUrl "/square" "/small")),
        ("license_photo", (dictGet pkvs "license_code").getD .null),
        ("attribution", (dictGet pkvs "attribution").getD .null)]

/-- Loop body of the photos block: `photo_data = obs_photo.get("photo", {})`;
`base_url = photo_data.get("url", "")`; a photo is appended only for a
truthy string base URL.  `.get` on a non-dict raises `AttributeError`. -/
def photosFold : List JVal → List JVal → Except String (List JVal)
  | [], acc => .ok acc.reverse
  | op :: rest, acc =>
    match op with
    | .obj okvs =>
      match (dictGet okvs "photo").getD (.obj []) with
      | .obj pkvs =>
        match (dictGet pkvs "url").getD (.str "") with
        | .str bs =>
          if bs ≠ "" then photosFold rest (photoFromData pkvs bs :: acc)
          else photosFold rest acc
        | v => if jTruthy v then .error "AttributeError" else photosFold rest acc
      | _ => .error "AttributeError"
    | _ => .error "AttributeError"

/-- Photos block (lines 417-434). -/
def photosSection (d : PyDict) : Except String PyDict :=
  match (dictGet d "observation_photos").getD (.list []) with
  | .list xs =>
    if !xs.isEmpty then (photosFold xs []).map (fun ph => dictSet d "photos" (.list ph))
    else .ok d
  | v => if jTruthy v then .error "TypeError" else .ok d

/-- Iconic-taxon block (lines 437-444): the id is taken from the (raw)
taxon dict when truthy there, else from the top level; the name is looked
up in `ICONIC_TAXON` (a miss stores `None`).  Python `bool` keys compare
equal to `0`/`1` in the dict lookup. -/
def iconicSection (d : PyDict) : PyDict :=
  let fromTop : Option JVal :=
    if truthyKey d "iconic_taxon_id" then dictGet d "iconic_taxon_id" else none
  let iconicId : Option JVal :=
    match dictGet d "taxon" with
    | some (.obj tkvs) =>
      if !tkvs.isEmpty && truthyKey tkvs "iconic_taxon_id" then dictGet tkvs "iconic_taxon_id"
      else fromTop
    | _ => fromTop
  match iconicId with
  | some v =>
    let name : Option String :=
      match v with
      | .int n => (ICONIC_TAXON.find? (fun p => p.1 == n)).map (fun p => p.2)
      | .bool b => (ICONIC_TAXON.find? (fun p => p.1 == (if b then 1 else 0))).map (fun p => p.2)
      | _ => none
    dictSet d "iconic_taxon" (match name with | some s => .str s | none => .null)
  | none => d

/-- User block (lines 447-450): `.get` on a truthy non-dict raises. -/
def userSection (d : PyDict) : Except String PyDict :=
  match dictGet d "user" with
  | some uv =>
    if jTruthy uv then
      match uv with
      | .obj ukvs =>
        .ok (dictSet (dictSet d "user_id" ((dictGet ukvs "id").getD .null))
          "user_login" ((dictGet ukvs "login").getD .null))
      | _ => .error "AttributeError"
    else .ok d
  | none => .ok d

/-- License block (lines 453-454): `license_code or license`, first truthy
value wins. -/
def licenseSection (d : PyDict) : PyDict :=
  if truthyKey d "license_code" || truthyKey d "license" then
    let v := if truthyKey d "license_code" then (dictGet d "license_code").getD .null
      else (dictGet d "license").getD .null
    dictSet d "license_obs" v
  else d

/-- Description block (lines 457-458): unguarded `.replace`. -/
def descriptionSection (d : PyDict) : Except String PyDict :=
  match dictGet d "description" with
  | some v =>
    if jTruthy v then
      match v with
      | .str s => .ok (dictSet d "description" (.str (pyReplace s "\r\n" " ")))
      | _ => .error "AttributeError"
    else .ok d
  | none => .ok d

/-- Login collection of the identifications block (lines 463-467):
`ident["user"]["login"]` for each entry whose
`ident.get("user", {}).get("login")` is truthy. -/
def collectLogins : List JVal → Except String (List JVal)
  | [] => .ok []
  | ident :: rest =>
    match ident with
    | .obj ikvs =>
      match (dictGet ikvs "user").getD (.obj []) with
      | .obj ukvs =>
        match dictGet ukvs "login" with
        | some lv =>
          if jTruthy lv then (collectLogins rest).map (fun ls => lv :: ls)
          else collectLogins rest
        | none => collectLogins rest
      | _ => .error "AttributeError"
    | _ => .error "AttributeError"

/-- Python `", ".join(logins)`; a non-string element raises `TypeError`. -/
def joinLogins : List JVal → Except String String
  | [] => .ok ""
  | [.str s] => .ok s
  | .str s :: rest => (joinLogins rest).map (fun r => s ++ ", " ++ r)
  | _ => .error "TypeError"

/-- Identifications block (lines 461-468): for a truthy list, the key
`identifiers` is set to the `", "`-joined logins, or to `None` when no
login was collected.  For an absent or empty list the key is never set. -/
def identificationsSection (d : PyDict) : Except String PyDict :=
  match dictGet d "identifications" with
  | some v =>
    if jTruthy v then
      match v with
      | .list xs => do
        let logins ← collectLogins xs
        if logins.isEmpty then pure (dictSet d "identifiers" .null)
        else (joinLogins logins).map (fun j => dictSet d "identifiers" (.str j))
      | _ => .error "TypeError"
    else .ok d
  | none => .ok d

/-- All in-place transformations of `_process_observation_data`, in source
order, before the final `Observation(**data)` validation. -/
def transformData (d : PyDict) : Except String PyDict := do
  let d := datesSection d
  let d := observedOnSection d
  let d := captiveSection d
  let d := deviceSection d
  let d ← placeSection d
  let d ← taxonSection d
  let d := locFromLatLngSection d
  let d := latLngFromLocSection d
  let d ← photosSection d
  let d := iconicSection d
  let d ← userSection d
  let d := licenseSection d
  let d ← descriptionSection d
  identificationsSection d

/-! ## `Observation(**data)` — pydantic validation

Pydantic (default config) ignores keys that are not declared model fields
— in particular the `identifiers`, `device` and `location` keys written by
the normalizer are silently dropped.  Declared fields are read from the
dict; a missing or `None` value yields the field default; a value of the
wrong shape fails validation.  (Pydantic's lax coercions — e.g. numeric
strings to numbers — are not needed by any claim and are not modelled.) -/

def getOptInt (d : PyDict) (k : String) : Except String (Option Int) :=
  match dictGet d k with
  | none => .ok none
  | some .null => .ok none
  | some (.int n) => .ok (some n)
  | some _ => .error "ValidationError"

def getOptStr (d : PyDict) (k : String) : Except String (Option String) :=
  match dictGet d k with
  | none => .ok none
  | some .null => .ok none
  | some (.str s) => .ok (some s)
  | some _ => .error "ValidationError"

def getOptBool (d : PyDict) (k : String) : Except String (Option Bool) :=
  match dictGet d k with
  | none => .ok none
  | some .null => .ok none
  | some (.bool b) => .ok (some b)
  | some _ => .error "ValidationError"

/-- Float-typed optional field (`latitude`/`longitude`): the numeric value
is carried as its literal. -/
def getOptNum (d : PyDict) (k : String) : Except String (Option String) :=
  match dictGet d k with
  | none => .ok none
  | some .null => .ok none
  | some (.real s) => .ok (some s)
  | some (.int n) => .ok (some (toString n))
  | some _ => .error "ValidationError"

def photoOfJVal : JVal → Except String Photo
  | .obj pkvs => do
    let pid ← getOptInt pkvs "id"
    let lu ← getOptStr pkvs "large_url"
    let mu ← getOptStr pkvs "medium_url"
    let su ← getOptStr pkvs "small_url"
    let lic ← getOptStr pkvs "license_photo"
    let att ← getOptStr pkvs "attribution"
    .ok { id := pid, large_url := lu, medium_url := mu, small_url := su,
          license_photo := lic, attribution := att }
  | _ => .error "ValidationError"

def getPhotos (d : PyDict) : Except String (List Photo) :=
  match dictGet d "photos" with
  | none => .ok []
  | some (.list xs) => xs.mapM photoOfJVal
  | some _ => .error "ValidationError"

/-- `Observation(**data)`: `id` is required (an `int`), all other declared
fields optional.  Undeclared keys are ignored. -/
def mkObservation (d : PyDict) : Except String Observation := do
  let oid ←
    match dictGet d "id" with
    | some (.int n) => pure n
    | _ => throw "ValidationError"
  let captive ← getOptBool d "captive"
  let createdAt ← getOptStr d "created_at"
  let updatedAt ← getOptStr d "updated_at"
  let observedOn ← getOptStr d "observed_on"
  let timeObservedAt ← getOptStr d "time_observed_at"
  let descr ← getOptStr d "description"
  let iconicTaxon ← getOptStr d "iconic_taxon"
  let taxonId ← getOptInt d "taxon_id"
  let taxonName ← getOptStr d "taxon_name"
  let taxonRank ← getOptStr d "taxon_rank"
  let taxonAncestry ← getOptStr d "taxon_ancestry"
  let lat ← getOptNum d "latitude"
  let lng ← getOptNum d "longitude"
  let obscured ← getOptBool d "obscured"
  let placeName ← getOptStr d "place_name"
  let qualityGrade ← getOptStr d "quality_grade"
  let userId ← getOptInt d "user_id"
  let userLogin ← getOptStr d "user_login"
  let licenseObs ← getOptStr d "license_obs"
  let photos ← getPhotos d
  let identCount ← getOptInt d "identifications_count"
  let identificators ← getOptStr d "identificators"
  let numAgree ← getOptInt d "num_identification_agreements"
  let numDisagree ← getOptInt d "num_identification_disagreements"
  .ok { id := oid, captive := captive, created_at := createdAt,
        updated_at := updatedAt, observed_on := observedOn,
        time_observed_at := timeObservedAt, description := descr,
        iconic_taxon := iconicTaxon, taxon_id := taxonId,
        taxon_name := taxonName, taxon_rank := taxonRank,
        taxon_ancestry := taxonAncestry, latitude := lat, longitude := lng,
        obscured := obscured, place_name := placeName,
        quality_grade := qualityGrade, user_id := userId,
        user_login := userLogin, license_obs := licenseObs,
        photos := photos, identifications_count := identCount,
        identificators := identificators,
        num_identification_agreements := numAgree,
        num_identification_disagreements := numDisagree }

/-- `_process_observation_data`: the in-place transformations followed by
`Observation(**data)`. -/
def processObservationData (d : PyDict) : Except String Observation :=
  (transformData d).bind mkObservation

/-! ## `_request` (mecoda_minka.py, lines 490-604)

The HTTP server is abstracted as a function from page number to an
optional response (`none` = a non-200 status, which breaks the paging
loop; for the first page it raises).  `_build_observations` is an
order-preserving per-record map of `_process_observation_data` over one
page (`executor.map` preserves input order), abstracted here as an
arbitrary function `f` over opaque records so that the retrieval logic is
independent of record shape, as the source is.

The run is instrumented with ghost state: `pages` mirrors the
`all_results` variable, `log` the `print` output (`"Number of elements: n"`
progress lines; `suppress_prints` drops them), and `requested` the page
numbers actually fetched with `session.get`.

One modelling note: after collecting the pages, the source builds the
observation lists per page and concatenates them — sequentially (in page
order) for at most 500 collected records, and via a small thread pool in
future-completion order beyond that.  The embedding resolves the
completion order to submission (page) order; each page's internal order is
preserved in either branch. -/

structure ApiPage (α : Type) where
  results : List α
  total_results : Option Nat
deriving Repr

structure FetchState (α : Type) where
  pages : List (List α)
  log : List String
  requested : List Nat
deriving Repr

def progressMsg (n : Nat) : String := "Number of elements: " ++ toString n

def sumLens {α : Type} (pages : List (List α)) : Nat :=
  (pages.map List.length).sum

/-- Python truthiness of the `num_max` argument (`if num_max:`): `None`
and `0` are falsy. -/
def numMaxTruthy : Option Nat → Bool
  | some m => m != 0
  | none => false

/-- Paging loop of `_request` (lines 541-573):
`while len(all_results) < total_pages_needed and page_num <= 50`, fetching
`page=page_num`; a non-200 status, a missing/empty `results` field, a page
shorter than 200 records or a satisfied `num_max` cap ends the loop.  The
fuel argument counts the remaining loop iterations (called with 49, for
pages 2..50, which the `page_num <= 50` guard already bounds). -/
def pagesLoop {α : Type} (server : Nat → Option (ApiPage α)) (needed : Nat)
    (numMax : Option Nat) (suppress : Bool) :
    Nat → Nat → FetchState α → FetchState α
  | 0, _, st => st
  | fuel + 1, pageNum, st =>
    if st.pages.length < needed ∧ pageNum ≤ 50 then
      let st1 : FetchState α :=
        { st with requested := st.requested ++ [pageNum] }
      match server pageNum with
      | none => st1
      | some resp =>
        if resp.results.isEmpty then st1
        else
          let pages2 := st1.pages ++ [resp.results]
          let log2 :=
            if suppress then st1.log else st1.log ++ [progressMsg (sumLens pages2)]
          let st2 : FetchState α :=
            { pages := pages2, log := log2, requested := st1.requested }
          if resp.results.length < 200 then st2
          else if numMaxTruthy numMax ∧ numMax.getD 0 ≤ sumLens pages2 then st2
          else pagesLoop server needed numMax suppress fuel (pageNum + 1) st2
    else st

structure RunResult (β α : Type) where
  results : List β
  log : List String
  requested : List Nat
  pages : List (List α)
deriving Repr

/-- `_request`.  The initial probe (line 510) fetches the base URL (page
1); a non-200 status raises.  `total_pages_needed` is
`min(50, ceil(num_max / 200))` for a truthy `num_max`, else
`min(50, ceil(total_results / 200))` with `total_results` defaulting to
the first page's length.  A first page shorter than 200 records, or a
single needed page, returns immediately (truncated to `num_max` when
truthy); otherwise the paging loop runs and the flattened observations
are truncated to `num_max` when truthy and exceeded. -/
def requestRun {α β : Type} (f : α → β) (server : Nat → Option (ApiPage α))
    (numMax : Option Nat) (suppress : Bool := false) :
    Except String (RunResult β α) :=
  match server 1 with
  | none => .error "HTTP error"
  | some resp =>
    let firstPage := resp.results
    let total := resp.total_results.getD firstPage.length
    let needed :=
      if numMaxTruthy numMax then min 50 ((numMax.getD 0 + 199) / 200)
      else min 50 ((total + 199) / 200)
    if firstPage.length < 200 ∨ needed = 1 then
      let obs :=
        if numMaxTruthy numMax then (firstPage.map f).take (numMax.getD 0)
        else firstPage.map f
      let log := if suppress then [] else [progressMsg obs.length]
      .ok ⟨obs, log, [1], [firstPage]⟩
    else
      let st := pagesLoop server needed numMax suppress 49 2 ⟨[firstPage], [], [1]⟩
      let obs0 := st.pages.flatten.map f
      let obs :=
        if numMaxTruthy numMax ∧ numMax.getD 0 < obs0.length then
          obs0.take (numMax.getD 0)
        else obs0
      .ok ⟨obs, st.log, st.requested, st.pages⟩

/-- Results of a run (empty list for the raising case, which no theorem
relies on). -/
def runResults {α β : Type} (r : Except String (RunResult β α)) : List β :=
  match r with
  | .ok run => run.results
  | .error _ => []

def runLog {α β : Type} (r : Except String (RunResult β α)) : List String :=
  match r with
  | .ok run => run.log
  | .error _ => []

def runRequested {α β : Type} (r : Except String (RunResult β α)) : List Nat :=
  match r with
  | .ok run => run.requested
  | .error _ => []

def taxonomicLevels : List String :=
  ["kingdom", "phylum", "class", "order", "family", "genus"]

/-- `result = {level: None for level in taxonomic_levels}`. -/
def initLevels : List (String × Option String) :=
  taxonomicLevels.map (fun l => (l, none))

def levelsGet (res : List (String × Option String)) (k : String) :
    Option (Option String) :=
  (res.find? (fun kv => kv.1 == k)).map (fun kv => kv.2)

/-- `result[rank] = name` — only ever called when `rank in result`. -/
def levelsSet (res : List (String × Option String)) (k : String)
    (v : Option String) : List (String × Option String) :=
  res.map (fun kv => if kv.1 == k then (k, v) else kv)

/-- Loop body over one ancestry token: `int(ancestry)` failures are
`continue`d; the root sentinel id `1` and ids missing from the lookup are
skipped; a known id stores its name under its rank when the rank is one
of the six levels. -/
def tokenStep (lookup : Int → Option (String × String))
    (res : List (String × Option String)) (tok : String) :
    List (String × Option String) :=
  match pyIntOfString tok with
  | none => res
  | some i =>
    if i ≠ 1 then
      match lookup i with
      | some rn =>
        if (res.map Prod.fst).contains rn.1 then levelsSet res rn.1 (some rn.2)
        else res
      | none => res
    else res

def tokensFold (lookup : Int → Option (String × String)) (toks : List String) :
    List (String × Option String) :=
  toks.foldl (tokenStep lookup) initLevels

/-- `extract_taxon_info_vectorized(ancestry_string)`: a null/absent or
empty (falsy) ancestry yields all-`None`; otherwise the string is split
on `"/"` and each token processed in order. -/
def extractTaxonInfo (ancestry : Option String)
    (lookup : Int → Option (String × String)) :
    List (String × Option String) :=
  match ancestry with
  | none => initLevels
  | some s => if s = "" then initLevels else tokensFold lookup (pySplit s '/')

/-! ## `get_dfs` (mecoda_minka.py, lines 607-868) — table schemas

The claims about `get_dfs` concern the column sets of the two returned
tables, so a table is modelled by its ordered column list and row count.
Cell values are not carried (the per-row ancestry-expansion semantics is
`extractTaxonInfo` above; the taxon lookup table affects only cell
values, never the column set). -/

structure Frame where
  cols : List String
  nrows : Nat
deriving DecidableEq, Repr

/-- `empty_obs_columns` (source lines 614-644), returned for an empty
observation list. -/
def emptyObsColumns : List String :=
  ["id", "created_at", "updated_at", "observed_on", "observed_on_time",
   "iconic_taxon", "taxon_id", "taxon_rank", "taxon_name", "latitude",
   "longitude", "obscured", "place_name", "quality_grade", "user_id",
   "user_login", "license_obs", "identifications_count", "identifiers",
   "num_identification_agreements", "num_identification_disagreements",
   "taxon_ancestry", "device", "kingdom", "phylum", "class", "order",
   "family", "genus"]

/-- `empty_photos_columns` (source lines 646-658); the same list is used
at lines 852-866 when no photo rows were extracted. -/
def emptyPhotosColumns : List String :=
  ["id", "photos_id", "iconic_taxon", "taxon_name", "photos_medium_url",
   "user_login", "latitude", "longitude", "license_photo", "attribution",
   "path"]

/-- `desired_columns` (source lines 780-804), the selection applied to the
observations table. -/
def desiredColumns : List String :=
  ["id", "created_at", "updated_at", "observed_on", "observed_on_time",
   "iconic_taxon", "taxon_id", "taxon_rank", "taxon_name", "latitude",
   "longitude", "obscured", "place_name", "quality_grade", "user_id",
   "user_login", "license_obs", "identifications_count", "identifiers",
   "num_identification_agreements", "num_identification_disagreements",
   "taxon_ancestry", "device"]

/-- Declared fields of the pydantic `Observation` model in declaration
order: the keys of `obs.__dict__`, hence the columns of the initial
`pd.DataFrame` built from a non-empty observation list. -/
def observationModelFields : List String :=
  ["id", "captive", "created_at", "updated_at", "observed_on",
   "time_observed_at", "description", "iconic_taxon", "taxon_id",
   "taxon_name", "taxon_rank", "taxon_ancestry", "latitude", "longitude",
   "obscured", "place_name", "quality_grade", "user_id", "user_login",
   "license_obs", "photos", "identifications_count", "identificators",
   "num_identification_agreements", "num_identification_disagreements"]

/-- Column order of the photos table when photo rows exist: the insertion
order of the `photos_data` row dicts (lines 693-737) plus the derived
`path` column appended by the `.loc` assignment (line 833). -/
def photosDataColumns : List String :=
  ["id", "iconic_taxon", "taxon_name", "user_login", "latitude",
   "longitude", "photos_id", "photos_medium_url", "license_photo",
   "attribution", "path"]

/-- Column pipeline of `get_dfs`.

For an empty input, the two explicit empty schemas are returned.  For a
non-empty input: the initial columns are the model fields; the `photos`
column is dropped when extracting photo rows; the datetime block derives
`observed_on_time` (appended) and drops `time_observed_at`; the desired
column selection keeps `desired_columns ∩ present` in desired order;
`_get_taxon_columns` appends the six taxonomic levels and drops
`taxon_ancestry`.  Sorting and fill operations permute/replace values
only.  Row counts: one row per observation; one photo row per
`(observation, photo)` pair. -/
def getDfs (obs : List Observation) : Frame × Frame :=
  if obs.isEmpty then (⟨emptyObsColumns, 0⟩, ⟨emptyPhotosColumns, 0⟩)
  else
    let cols1 := observationModelFields.erase "photos"
    let cols2 := (cols1 ++ ["observed_on_time"]).erase "time_observed_at"
    let cols3 := desiredColumns.filter (fun c => cols2.contains c)
    let cols4 :=
      if cols3.contains "taxon_ancestry" then
        (cols3 ++ taxonomicLevels).erase "taxon_ancestry"
      else cols3
    let photosCount := (obs.map (fun o => o.photos.length)).sum
    let photosFrame : Frame :=
      if photosCount = 0 then ⟨emptyPhotosColumns, 0⟩
      else ⟨photosDataColumns, photosCount⟩
    (⟨cols4, obs.length⟩, photosFrame)

/-! ## Auxiliary definitions used by the theorem statements -/

/-- Fragment for a valid supplied taxon filter. -/
def taxonPart (t : Option String) : List (String × String) :=
  match t with
  | some t => [("iconic_taxa", pyTitle t)]
  | none => []

/-- Total variant of `buildParams` for argument sets whose taxon filter (if
any) is valid; proven equal to `buildParams` under that hypothesis. -/
def buildParamsOk (a : UrlArgs) : List (String × String) :=
  optPart a.id_obs "id" toString ++
  projectPart a.id_project a.introduced ++
  optPart a.user "user_login" id ++
  optPart a.created_on "created_on" id ++
  optPart a.created_d1 "created_d1" id ++
  optPart a.created_d2 "created_d2" id ++
  optPart a.starts_on "d1" id ++
  optPart a.ends_on "d2" id ++
  optPart a.query "q" (fun q => "\"" ++ q ++ "\"") ++
  taxonPart a.taxon ++
  placePart a.place_id a.introduced ++
  optPart a.year "year" toString ++
  optPart a.taxon_id "taxon_id" toString ++
  optPart a.grade "quality_grade" id ++
  optPart a.id_above "id_above" toString ++
  optPart a.id_below "id_below" toString ++
  optPart a.updated_since "updated_since" id

/-- The supplied taxon filter (if any) belongs to the vocabulary after
title-casing. -/
def taxonOk (a : UrlArgs) : Prop :=
  match a.taxon with
  | none => True
  | some t => TAXONS.contains (pyTitle t) = true

/-- A token of an ancestry string that contributes nothing: unparsable as
an integer, the root sentinel `1`, or an id with no row in the lookup
table. -/
def unmatchedToken (lookup : Int → Option (String × String)) (t : String) : Prop :=
  ∀ i, pyIntOfString t = some i → i = 1 ∨ lookup i = none

/-- Server that answers every page with exactly 200 records (no shorter
terminal page ever arrives), reporting a total of 20 000. -/
def c2Server : Nat → Option (ApiPage Nat) := fun _ =>
  some ⟨List.replicate 200 0, some 20000⟩

/-- Raw observation with two identifications by users `ana` and `bob`. -/
def c6Input : PyDict :=
  [("id", .int 7),
   ("identifications", .list
     [.obj [("user", .obj [("login", .str "ana")])],
      .obj [("user", .obj [("login", .str "bob")])]])]

/-- Raw observation with an empty identifications list. -/
def c6EmptyInput : PyDict :=
  [("id", .int 8), ("identifications", .list [])]

/-! # Theorems -/

/-- Claim C9: for the empty observation list, `get_dfs` returns two empty
tables (observations and photos) whose column sets are exactly the
documented schemas — 29 observation columns and 11 photo columns — and
not zero-column tables. -/
theorem claim_C9_empty_schemas :
    getDfs [] = (⟨emptyObsColumns, 0⟩, ⟨emptyPhotosColumns, 0⟩) ∧
    emptyObsColumns.length = 29 ∧ emptyPhotosColumns.length = 11 ∧
    emptyObsColumns ≠ [] ∧ emptyPhotosColumns ≠ [] :=
  ⟨rfl, rfl, rfl, by decide, by decide⟩

/-- Claim C10: for every non-empty observation list, the observations
table of `get_dfs` has no `identifiers`, no `device` and no
`taxon_ancestry` column (the model declares `identificators` instead of
`identifiers` and no `device` field, so the normalizer's values for those
keys are dropped at validation; ancestry expansion drops
`taxon_ancestry`), hence its column set differs from the empty-input
schema, which contains all three. -/
theorem claim_C10_nonempty_columns (obs : List Observation) (h : obs ≠ []) :
    (getDfs obs).1.cols =
      ["id", "created_at", "updated_at", "observed_on", "observed_on_time",
       "iconic_taxon", "taxon_id", "taxon_rank", "taxon_name", "latitude",
       "longitude", "obscured", "place_name", "quality_grade", "user_id",
       "user_login", "license_obs", "identifications_count",
       "num_identification_agreements", "num_identification_disagreements",
       "kingdom", "phylum", "class", "order", "family", "genus"] ∧
    "identifiers" ∉ (getDfs obs).1.cols ∧
    "device" ∉ (getDfs obs).1.cols ∧
    "taxon_ancestry" ∉ (getDfs obs).1.cols ∧
    "identifiers" ∈ emptyObsColumns ∧ "device" ∈ emptyObsColumns ∧
    "taxon_ancestry" ∈ emptyObsColumns ∧
    (getDfs obs).1.cols ≠ emptyObsColumns := by
  have he : obs.isEmpty = false := by
    cases obs with
    | nil => exact absurd rfl h
    | cons a l => rfl
  simp only [getDfs, he, Bool.false_eq_true, if_false]
  refine ⟨by decide, by decide, by decide, by decide, by decide, by decide,
    by decide, by decide⟩

/-- Witness for C10 at a concrete one-element observation list. -/
theorem claim_C10_nonempty_columns_witness :
    ([({ id := 1 } : Observation)] ≠ []) ∧
    "identifiers" ∉ (getDfs [({ id := 1 } : Observation)]).1.cols ∧
    "device" ∉ (getDfs [({ id := 1 } : Observation)]).1.cols ∧
    "taxon_ancestry" ∉ (getDfs [({ id := 1 } : Observation)]).1.cols :=
  ⟨by simp, (claim_C10_nonempty_columns [{ id := 1 }] (by simp)).2.1,
    (claim_C10_nonempty_columns [{ id := 1 }] (by simp)).2.2.1,
    (claim_C10_nonempty_columns [{ id := 1 }] (by simp)).2.2.2.1⟩

/-! ## Ancestry expansion lemmas (claim C8) -/

/-- `result[rank] = name` preserves the key list of the result dict. -/
theorem levelsSet_keys (res : List (String × Option String)) (k : String)
    (v : Option String) : (levelsSet res k v).map Prod.fst = res.map Prod.fst := by
  simp only [levelsSet, List.map_map]
  refine List.map_congr_left ?_
  intro kv _
  by_cases hk : kv.1 == k
  · have hkv : kv.1 = k := by simpa using hk
    simp [Function.comp, hk, hkv]
  · simp [Function.comp, hk]

/-- One token step preserves the key list. -/
theorem tokenStep_keys (lookup : Int → Option (String × String))
    (res : List (String × Option String)) (t : String) :
    (tokenStep lookup res t).map Prod.fst = res.map Prod.fst := by
  unfold tokenStep
  cases hh : pyIntOfString t with
  | none => rfl
  | some i =>
    by_cases hi : i = 1
    · simp [hi]
    · simp only [Ne, hi, not_false_eq_true, if_true]
      cases hl : lookup i with
      | none => rfl
      | some rn =>
        show (if (res.map Prod.fst).contains rn.1 = true then
            levelsSet res rn.1 (some rn.2) else res).map Prod.fst = res.map Prod.fst
        by_cases hc : (res.map Prod.fst).contains rn.1
        · rw [if_pos hc, levelsSet_keys]
        · rw [if_neg hc]

/-- The fold over any token list keeps the six-level key list. -/
theorem tokensFold_keys (lookup : Int → Option (String × String)) :
    ∀ (toks : List String) (res : List (String × Option String)),
      (toks.foldl (tokenStep lookup) res).map Prod.fst = res.map Prod.fst := by
  intro toks
  induction toks with
  | nil => intro res; rfl
  | cons t rest ih =>
    intro res
    simp only [List.foldl_cons]
    rw [ih, tokenStep_keys]

/-- Reading back a key just set. -/
theorem levelsGet_levelsSet (res : List (String × Option String)) (k : String)
    (v : Option String) (hk : (res.map Prod.fst).contains k = true) :
    levelsGet (levelsSet res k v) k = some v := by
  induction res with
  | nil => simp at hk
  | cons kv rest ih =>
    by_cases h1 : kv.1 == k
    · have hkv : (if (kv.1 == k) = true then (k, v) else kv) = (k, v) := if_pos h1
      simp only [levelsSet, List.map_cons, hkv, levelsGet]
      rw [List.find?_cons_of_pos]
      · rfl
      · simp
    · have hk2 : (rest.map Prod.fst).contains k = true := by
        simp only [List.map_cons, List.contains_cons] at hk
        rcases Bool.or_eq_true_iff.mp hk with h | h
        · have hke : k = kv.1 := by simpa using h
          exact absurd (by simp [hke]) h1
        · simpa using h
      have ih2 := ih hk2
      simp only [levelsSet, List.map_cons, if_neg h1, levelsGet] at ih2 ⊢
      rw [List.find?_cons_of_neg]
      · exact ih2
      · simpa using h1

/-- Masking the root sentinel id out of the lookup table never changes a
token step, because the step already skips id `1`. -/
theorem tokenStep_mask_root (l2 : Int → Option (String × String))
    (res : List (String × Option String)) (t : String) :
    tokenStep (fun i => if i = 1 then none else l2 i) res t = tokenStep l2 res t := by
  unfold tokenStep
  cases hh : pyIntOfString t with
  | none => rfl
  | some i =>
    by_cases hi : i = 1
    · simp [hi]
    · simp [hi]

theorem foldl_tokenStep_mask (l2 : Int → Option (String × String)) :
    ∀ (toks : List String) (res : List (String × Option String)),
      toks.foldl (tokenStep (fun i => if i = 1 then none else l2 i)) res =
        toks.foldl (tokenStep l2) res := by
  intro toks
  induction toks with
  | nil => intro res; rfl
  | cons t rest ih =>
    intro res
    simp only [List.foldl_cons, tokenStep_mask_root, ih]

/-- Claim C8: ancestry expansion is a pure function of the ancestry string
and the lookup table.  (1) For the row ancestry `"1/2/10/118"` with the
lookup mapping id 118 to rank `class` and name `Malacostraca`, the
resulting `class` column equals `"Malacostraca"` — whatever the lookup
says about the other ids, since 118 is processed last.  (2) The root
sentinel id 1 never contributes a column value: removing id 1 from any
lookup table changes nothing.  (3) A token that fails integer parsing, is
the sentinel, or has no row in the lookup table is skipped without
failing the row: deleting it from the token list leaves the fold
unchanged. -/
theorem claim_C8_ancestry_expansion (lookup : Int → Option (String × String))
    (h118 : lookup 118 = some ("class", "Malacostraca")) :
    levelsGet (extractTaxonInfo (some "1/2/10/118") lookup) "class" =
      some (some "Malacostraca") ∧
    (∀ (anc : Option String) (l2 : Int → Option (String × String)),
      extractTaxonInfo anc (fun i => if i = 1 then none else l2 i) =
        extractTaxonInfo anc l2) ∧
    (∀ (l2 : Int → Option (String × String)) (pre post : List String) (t : String),
      unmatchedToken l2 t →
      tokensFold l2 (pre ++ t :: post) = tokensFold l2 (pre ++ post)) := by
  refine ⟨?_, ?_, ?_⟩
  · have hne : ("1/2/10/118" : String) ≠ "" := by decide
    have hsplit : pySplit "1/2/10/118" '/' = ["1", "2", "10", "118"] := by decide
    simp only [extractTaxonInfo, hne, if_false, hsplit]
    simp only [tokensFold, List.foldl_cons, List.foldl_nil]
    have h118p : pyIntOfString "118" = some 118 := by decide
    generalize hX : tokenStep lookup (tokenStep lookup (tokenStep lookup initLevels "1") "2") "10" = X
    have hkeys : X.map Prod.fst = taxonomicLevels := by
      rw [← hX, tokenStep_keys, tokenStep_keys, tokenStep_keys]
      decide
    have hcont : (X.map Prod.fst).contains "class" = true := by
      rw [hkeys]; decide
    unfold tokenStep
    rw [h118p]
    show levelsGet
      (if (118 : Int) ≠ 1 then
        match lookup 118 with
        | some rn =>
          if (X.map Prod.fst).contains rn.1 = true then levelsSet X rn.1 (some rn.2) else X
        | none => X
      else X) "class" = some (some "Malacostraca")
    rw [if_pos (by decide), h118]
    show levelsGet
      (if (X.map Prod.fst).contains "class" = true then
        levelsSet X "class" (some "Malacostraca") else X) "class" =
      some (some "Malacostraca")
    rw [if_pos hcont]
    exact levelsGet_levelsSet X "class" (some "Malacostraca") hcont
  · intro anc l2
    cases anc with
    | none => rfl
    | some s =>
      by_cases hs : s = ""
      · simp [extractTaxonInfo, hs]
      · simp only [extractTaxonInfo, hs, if_false, tokensFold, foldl_tokenStep_mask]
  · intro l2 pre post t ht
    have hstep : ∀ res, tokenStep l2 res t = res := by
      intro res
      unfold tokenStep
      cases hh : pyIntOfString t with
      | none => rfl
      | some i =>
        rcases ht i hh with h1 | h1
        · simp [h1]
        · by_cases hi : i = 1
          · simp [hi]
          · simp [hi, h1]
    simp only [tokensFold, List.foldl_append, List.foldl_cons, hstep]

/-- Witness for C8 at a concrete lookup table containing only id 118. -/
theorem claim_C8_witness :
    ((fun i : Int => if i = 118 then some ("class", "Malacostraca") else none) 118 =
      some (("class" : String), ("Malacostraca" : String))) ∧
    levelsGet (extractTaxonInfo (some "1/2/10/118")
        (fun i : Int => if i = 118 then some ("class", "Malacostraca") else none))
      "class" = some (some "Malacostraca") :=
  ⟨by decide, (claim_C8_ancestry_expansion _ (by decide)).1⟩

/-! ## Query-builder lemmas (claims C7 and C4) -/

theorem countName_append (k : String) (ps qs : List (String × String)) :
    countName k (ps ++ qs) = countName k ps + countName k qs := by
  simp [countName, List.countP_append]

theorem countName_optPart {α : Type} (k k2 : String) (o : Option α)
    (f : α → String) :
    countName k (optPart o k2 f) = if o.isSome ∧ k2 = k then 1 else 0 := by
  cases o with
  | none => simp [optPart, countName]
  | some a =>
    by_cases hk : k2 = k
    · simp [optPart, countName, hk]
    · simp [optPart, countName, hk]

theorem countName_taxonPart (k : String) (t : Option String) :
    countName k (taxonPart t) = if t.isSome ∧ "iconic_taxa" = k then 1 else 0 := by
  cases t with
  | none => simp [taxonPart, countName]
  | some s =>
    by_cases hk : "iconic_taxa" = k
    · simp [taxonPart, countName, hk]
    · simp [taxonPart, countName, hk]

theorem countName_projectPart (k : String) (ip : Option Nat) (intr : Option Bool) :
    countName k (projectPart ip intr) =
      (if ip.isSome ∧ "project_id" = k then 1 else 0) +
      (if ip.isSome ∧ intr = some true ∧ "introduced" = k then 1 else 0) := by
  cases ip with
  | none => simp [projectPart, countName]
  | some n =>
    by_cases hi : intr = some true
    · by_cases h1 : "project_id" = k <;> by_cases h2 : "introduced" = k <;>
        simp_all [projectPart, countName]
    · by_cases h1 : "project_id" = k <;>
        simp_all [projectPart, countName]

theorem countName_placePart (k : String) (pl : Option Nat) (intr : Option Bool) :
    countName k (placePart pl intr) =
      (if pl.isSome ∧ "place_id" = k then 1 else 0) +
      (if pl.isSome ∧ intr = some true ∧ "introduced" = k then 1 else 0) := by
  cases pl with
  | none => simp [placePart, countName]
  | some n =>
    by_cases hi : intr = some true
    · by_cases h1 : "place_id" = k <;> by_cases h2 : "introduced" = k <;>
        simp_all [placePart, countName]
    · by_cases h1 : "place_id" = k <;>
        simp_all [placePart, countName]

/-- `_build_url` succeeds exactly on a valid (or absent) taxon filter and
then produces the fragments of `buildParamsOk`. -/
theorem buildParams_eq_ok (a : UrlArgs) (h : taxonOk a) :
    buildParams a = .ok (buildParamsOk a) := by
  unfold buildParams buildParamsOk taxonPart
  unfold taxonOk at h
  cases ht : a.taxon with
  | none => simp [ht, pure, Except.pure, bind, Except.bind]
  | some t =>
    rw [ht] at h
    have h2 : pyTitle t ∈ TAXONS := by simpa using h
    simp [ht, h2, pure, Except.pure, bind, Except.bind]

/-- Claim C7 (amended): for every valid filter combination, the built
query contains exactly one occurrence of each supplied filter's parameter
and none for unsupplied filters, with `per_page=200` always appended —
except the `introduced` flag, which contributes one `introduced=true`
parameter for each of project id and place id supplied alongside it (zero
occurrences when neither is supplied, two when both are). -/
theorem claim_C7_param_occurrences (a : UrlArgs) (h : taxonOk a) :
    buildParams a = .ok (buildParamsOk a) ∧
    buildUrl a = .ok (API_PATH ++ "/observations?" ++
      String.intercalate "&"
        ((buildParamsOk a).map (fun kv => kv.1 ++ "=" ++ kv.2)) ++
      "&per_page=200") ∧
    countName "id" (buildParamsOk a) = (if a.id_obs.isSome then 1 else 0) ∧
    countName "project_id" (buildParamsOk a) = (if a.id_project.isSome then 1 else 0) ∧
    countName "user_login" (buildParamsOk a) = (if a.user.isSome then 1 else 0) ∧
    countName "created_on" (buildParamsOk a) = (if a.created_on.isSome then 1 else 0) ∧
    countName "created_d1" (buildParamsOk a) = (if a.created_d1.isSome then 1 else 0) ∧
    countName "created_d2" (buildParamsOk a) = (if a.created_d2.isSome then 1 else 0) ∧
    countName "d1" (buildParamsOk a) = (if a.starts_on.isSome then 1 else 0) ∧
    countName "d2" (buildParamsOk a) = (if a.ends_on.isSome then 1 else 0) ∧
    countName "q" (buildParamsOk a) = (if a.query.isSome then 1 else 0) ∧
    countName "iconic_taxa" (buildParamsOk a) = (if a.taxon.isSome then 1 else 0) ∧
    countName "place_id" (buildParamsOk a) = (if a.place_id.isSome then 1 else 0) ∧
    countName "year" (buildParamsOk a) = (if a.year.isSome then 1 else 0) ∧
    countName "taxon_id" (buildParamsOk a) = (if a.taxon_id.isSome then 1 else 0) ∧
    countName "quality_grade" (buildParamsOk a) = (if a.grade.isSome then 1 else 0) ∧
    countName "id_above" (buildParamsOk a) = (if a.id_above.isSome then 1 else 0) ∧
    countName "id_below" (buildParamsOk a) = (if a.id_below.isSome then 1 else 0) ∧
    countName "updated_since" (buildParamsOk a) = (if a.updated_since.isSome then 1 else 0) ∧
    countName "introduced" (buildParamsOk a) =
      (if a.introduced = some true then
        (if a.id_project.isSome then 1 else 0) + (if a.place_id.isSome then 1 else 0)
       else 0) ∧
    countName "per_page" (buildParamsOk a) = 0 := by
  refine ⟨buildParams_eq_ok a h, ?_, ?_, ?_, ?_, ?_, ?_, ?_, ?_, ?_, ?_, ?_, ?_,
    ?_, ?_, ?_, ?_, ?_, ?_, ?_, ?_⟩
  · unfold buildUrl
    rw [buildParams_eq_ok a h]
    rfl
  all_goals
    simp [buildParamsOk, countName_append, countName_optPart, countName_taxonPart,
      countName_projectPart, countName_placePart]
  · by_cases hi : a.introduced = some true <;> simp [hi]

/-- Counterexample for claim C7 as stated: with `introduced=True` combined
with both a project id and a place id, the built URL contains the
`introduced` parameter twice, not exactly once. -/
theorem claim_C7_counterexample :
    buildUrl { introduced := some true, id_project := some 1, place_id := some 2 } =
      .ok ("https://api.minka-sdg.org/v1/observations?" ++
        "introduced=true&project_id=1&introduced=true&place_id=2&per_page=200") ∧
    countName "introduced"
      (buildParamsOk { introduced := some true, id_project := some 1, place_id := some 2 }) = 2 ∧
    (2 : Nat) ≠ 1 := by
  refine ⟨?_, by decide, by decide⟩
  rfl

/-- Witness for C7 at a concrete argument set (`introduced` with project
and place, plus a lower-case taxon). -/
theorem claim_C7_witness :
    taxonOk { introduced := some true, id_project := some 11, place_id := some 3,
              taxon := some "fungi", user := some "zolople" } ∧
    countName "introduced" (buildParamsOk
      { introduced := some true, id_project := some 11, place_id := some 3,
        taxon := some "fungi", user := some "zolople" }) = 2 ∧
    countName "iconic_taxa" (buildParamsOk
      { introduced := some true, id_project := some 11, place_id := some 3,
        taxon := some "fungi", user := some "zolople" }) = 1 ∧
    countName "user_login" (buildParamsOk
      { introduced := some true, id_project := some 11, place_id := some 3,
        taxon := some "fungi", user := some "zolople" }) = 1 ∧
    countName "id" (buildParamsOk
      { introduced := some true, id_project := some 11, place_id := some 3,
        taxon := some "fungi", user := some "zolople" }) = 0 :=
  ⟨rfl,
    by
      have h := claim_C7_param_occurrences
        { introduced := some true, id_project := some 11, place_id := some 3,
          taxon := some "fungi", user := some "zolople" } rfl
      rw [h.2.2.2.2.2.2.2.2.2.2.2.2.2.2.2.2.2.2.2.1]
      decide,
    by
      have h := claim_C7_param_occurrences
        { introduced := some true, id_project := some 11, place_id := some 3,
          taxon := some "fungi", user := some "zolople" } rfl
      rw [h.2.2.2.2.2.2.2.2.2.2.2.1]
      decide,
    by
      have h := claim_C7_param_occurrences
        { introduced := some true, id_project := some 11, place_id := some 3,
          taxon := some "fungi", user := some "zolople" } rfl
      rw [h.2.2.2.2.1]
      decide,
    by
      have h := claim_C7_param_occurrences
        { introduced := some true, id_project := some 11, place_id := some 3,
          taxon := some "fungi", user := some "zolople" } rfl
      rw [h.2.2.1]
      decide⟩

theorem char_toNat_ofNat (n : Nat) (h : n < 55296) : (Char.ofNat n).toNat = n := by
  unfold Char.ofNat Char.ofNatAux
  have hv : Nat.isValidChar n := Or.inl h
  simp [hv, Char.toNat, UInt32.toNat, BitVec.ofNatLt]

theorem char_eq_of_toNat (c d : Char) (h : c.toNat = d.toNat) : c = d := by
  apply Char.eq_of_val_eq
  exact UInt32.ext h

theorem isAsciiUpperChar_iff (c : Char) :
    isAsciiUpperChar c = true ↔ 65 ≤ c.toNat ∧ c.toNat ≤ 90 := by
  simp [isAsciiUpperChar]

theorem isAsciiLowerChar_iff (c : Char) :
    isAsciiLowerChar c = true ↔ 97 ≤ c.toNat ∧ c.toNat ≤ 122 := by
  simp [isAsciiLowerChar]

theorem asciiLowerChar_toNat_of_upper (c : Char) (h : isAsciiUpperChar c = true) :
    (asciiLowerChar c).toNat = c.toNat + 32 := by
  have hb := (isAsciiUpperChar_iff c).mp h
  unfold asciiLowerChar
  rw [if_pos h]
  exact char_toNat_ofNat _ (by omega)

theorem asciiLowerChar_of_not_upper (c : Char) (h : isAsciiUpperChar c = false) :
    asciiLowerChar c = c := by
  unfold asciiLowerChar
  simp [h]

theorem asciiUpperChar_toNat_of_lower (c : Char) (h : isAsciiLowerChar c = true) :
    (asciiUpperChar c).toNat = c.toNat - 32 := by
  have hb := (isAsciiLowerChar_iff c).mp h
  unfold asciiUpperChar
  rw [if_pos h]
  exact char_toNat_ofNat _ (by omega)

theorem asciiUpperChar_of_not_lower (c : Char) (h : isAsciiLowerChar c = false) :
    asciiUpperChar c = c := by
  unfold asciiUpperChar
  simp [h]

theorem upper_not_lower (c : Char) (h : isAsciiUpperChar c = true) :
    isAsciiLowerChar c = false := by
  have hb := (isAsciiUpperChar_iff c).mp h
  simp [isAsciiLowerChar]
  omega

theorem lower_not_upper (c : Char) (h : isAsciiLowerChar c = true) :
    isAsciiUpperChar c = false := by
  have hb := (isAsciiLowerChar_iff c).mp h
  simp [isAsciiUpperChar]
  omega

/-- Characters with equal ASCII case folds agree on letterhood and on
upper casing. -/
theorem case_fold_congr (c d : Char) (h : asciiLowerChar c = asciiLowerChar d) :
    isAsciiAlphaChar c = isAsciiAlphaChar d ∧ asciiUpperChar c = asciiUpperChar d := by
  by_cases uc : isAsciiUpperChar c = true
  · by_cases ud : isAsciiUpperChar d = true
    · have hn : c.toNat = d.toNat := by
        have h1 := asciiLowerChar_toNat_of_upper c uc
        have h2 := asciiLowerChar_toNat_of_upper d ud
        have := congrArg Char.toNat h
        omega
      rw [char_eq_of_toNat c d hn]
      exact ⟨rfl, rfl⟩
    · have hud : isAsciiUpperChar d = false := by simpa using ud
      have h1 := asciiLowerChar_toNat_of_upper c uc
      have h2 := asciiLowerChar_of_not_upper d hud
      have hdn : d.toNat = c.toNat + 32 := by
        have := congrArg Char.toNat h
        rw [h1, h2] at this
        omega
      have hcb := (isAsciiUpperChar_iff c).mp uc
      have hld : isAsciiLowerChar d = true := by
        rw [isAsciiLowerChar_iff]
        omega
      constructor
      · simp [isAsciiAlphaChar, uc, hld]
      · rw [asciiUpperChar_of_not_lower c (upper_not_lower c uc)]
        apply char_eq_of_toNat
        rw [asciiUpperChar_toNat_of_lower d hld]
        omega
  · have huc : isAsciiUpperChar c = false := by simpa using uc
    by_cases ud : isAsciiUpperChar d = true
    · have h1 := asciiLowerChar_of_not_upper c huc
      have h2 := asciiLowerChar_toNat_of_upper d ud
      have hcn : c.toNat = d.toNat + 32 := by
        have := congrArg Char.toNat h
        rw [h1] at this
        omega
      have hdb := (isAsciiUpperChar_iff d).mp ud
      have hlc : isAsciiLowerChar c = true := by
        rw [isAsciiLowerChar_iff]
        omega
      constructor
      · simp [isAsciiAlphaChar, ud, hlc]
      · rw [asciiUpperChar_of_not_lower d (upper_not_lower d ud)]
        apply char_eq_of_toNat
        rw [asciiUpperChar_toNat_of_lower c hlc]
        omega
    · have hud : isAsciiUpperChar d = false := by simpa using ud
      have h1 := asciiLowerChar_of_not_upper c huc
      have h2 := asciiLowerChar_of_not_upper d hud
      rw [h1, h2] at h
      rw [h]
      exact ⟨rfl, rfl⟩

theorem pyTitleAux_congr :
    ∀ (cs ds : List Char), cs.map asciiLowerChar = ds.map asciiLowerChar →
      ∀ b, pyTitleAux b cs = pyTitleAux b ds := by
  intro cs
  induction cs with
  | nil =>
    intro ds h b
    cases ds with
    | nil => rfl
    | cons d ds => simp at h
  | cons c cs ih =>
    intro ds h b
    cases ds with
    | nil => simp at h
    | cons d ds =>
      simp only [List.map_cons, List.cons.injEq] at h
      obtain ⟨hhd, htl⟩ := h
      obtain ⟨halpha, hupper⟩ := case_fold_congr c d hhd
      simp only [pyTitleAux]
      by_cases hc : isAsciiAlphaChar c = true
      · have hd : isAsciiAlphaChar d = true := by rw [← halpha]; exact hc
        rw [hc, hd]
        simp only [if_true]
        cases b with
        | true => simp only [if_true]; rw [hhd, ih ds htl true]
        | false => simp only [Bool.false_eq_true, if_false]; rw [hupper, ih ds htl true]
      · have hc2 : isAsciiAlphaChar c = false := by simpa using hc
        have hd2 : isAsciiAlphaChar d = false := by rw [← halpha]; exact hc2
        have hcu : isAsciiUpperChar c = false := by
          revert hc2; simp [isAsciiAlphaChar]; intro h1 _; exact h1
        have hdu : isAsciiUpperChar d = false := by
          revert hd2; simp [isAsciiAlphaChar]; intro h1 _; exact h1
        have hcd : c = d := by
          rw [asciiLowerChar_of_not_upper c hcu, asciiLowerChar_of_not_upper d hdu] at hhd
          exact hhd
        rw [hc2, hd2]
        simp only [Bool.false_eq_true, if_false]
        rw [hcd, ih ds htl false]

theorem pyTitle_congr (s t : String) (h : asciiLowerStr s = asciiLowerStr t) :
    pyTitle s = pyTitle t := by
  unfold pyTitle
  have hd : s.data.map asciiLowerChar = t.data.map asciiLowerChar := by
    have := congrArg String.data h
    simpa [asciiLowerStr] using this
  rw [pyTitleAux_congr s.data t.data hd false]

theorem lower_upper_lower (c : Char) :
    asciiLowerChar (asciiUpperChar c) = asciiLowerChar c := by
  by_cases lc : isAsciiLowerChar c = true
  · have hb := (isAsciiLowerChar_iff c).mp lc
    have h1 := asciiUpperChar_toNat_of_lower c lc
    have hu : isAsciiUpperChar (asciiUpperChar c) = true := by
      rw [isAsciiUpperChar_iff]
      omega
    apply char_eq_of_toNat
    rw [asciiLowerChar_toNat_of_upper _ hu, h1,
      asciiLowerChar_of_not_upper c (lower_not_upper c lc)]
    omega
  · rw [asciiUpperChar_of_not_lower c (by simpa using lc)]

theorem lower_lower_lower (c : Char) :
    asciiLowerChar (asciiLowerChar c) = asciiLowerChar c := by
  by_cases uc : isAsciiUpperChar c = true
  · have hb := (isAsciiUpperChar_iff c).mp uc
    have h1 := asciiLowerChar_toNat_of_upper c uc
    have hnu : isAsciiUpperChar (asciiLowerChar c) = false := by
      simp only [isAsciiUpperChar, h1]
      simp
      omega
    rw [asciiLowerChar_of_not_upper _ hnu]
  · rw [asciiLowerChar_of_not_upper c (by simpa using uc)]
    exact asciiLowerChar_of_not_upper c (by simpa using uc)

theorem pyTitleAux_lower :
    ∀ (cs : List Char) (b : Bool),
      (pyTitleAux b cs).map asciiLowerChar = cs.map asciiLowerChar := by
  intro cs
  induction cs with
  | nil => intro b; rfl
  | cons c cs ih =>
    intro b
    simp only [pyTitleAux]
    by_cases hc : isAsciiAlphaChar c = true
    · rw [hc]
      simp only [if_true]
      cases b with
      | true =>
        simp only [if_true, List.map_cons, ih, lower_lower_lower, List.map_cons]
      | false =>
        simp only [Bool.false_eq_true, if_false, List.map_cons, ih, lower_upper_lower]
    · have hc2 : isAsciiAlphaChar c = false := by simpa using hc
      rw [hc2]
      simp only [Bool.false_eq_true, if_false, List.map_cons, ih]

theorem asciiLowerStr_pyTitle (s : String) :
    asciiLowerStr (pyTitle s) = asciiLowerStr s := by
  unfold asciiLowerStr pyTitle
  simp only [pyTitleAux_lower]

/-- Every vocabulary entry is a fixed point of title casing. -/
theorem pyTitle_taxons : ∀ w ∈ TAXONS, pyTitle w = w := by decide

/-- Claim C4: a textual taxon filter that case-insensitively matches the
closed vocabulary is accepted, with the URL determined by the title-cased
entry — so all case variants build identical URLs — while any other value
fails with `ValueError("Not a valid taxonomy")` before any network
request (`_build_url` is a pure string computation; `get_obs` only issues
requests after it returns).  The ASCII hypotheses scope the statement to
the plane on which the embedded `str.title()` is faithful. -/
theorem claim_C4_taxon_vocabulary (s : String) (hs : allAscii s = true) :
    (∀ w ∈ TAXONS, asciiLowerStr s = asciiLowerStr w →
      pyTitle s = w ∧
      buildParams { taxon := some s } = .ok [("iconic_taxa", w)] ∧
      buildUrl { taxon := some s } = buildUrl { taxon := some w }) ∧
    ((∀ w ∈ TAXONS, asciiLowerStr s ≠ asciiLowerStr w) →
      buildUrl { taxon := some s } = .error "Not a valid taxonomy") ∧
    (∀ t : String, allAscii t = true → asciiLowerStr t = asciiLowerStr s →
      buildUrl { taxon := some t } = buildUrl { taxon := some s }) := by
  refine ⟨?_, ?_, ?_⟩
  · intro w hw hlw
    have h1 : pyTitle s = w := by
      rw [pyTitle_congr s w hlw]
      exact pyTitle_taxons w hw
    have hsm : pyTitle s ∈ TAXONS := h1 ▸ hw
    refine ⟨h1, ?_, ?_⟩
    · simp [buildParams, hsm, hw, h1, pure, Except.pure, bind, Except.bind, optPart,
        projectPart, placePart]
    · unfold buildUrl
      have hps : buildParams { taxon := some s } = buildParams { taxon := some w } := by
        simp [buildParams, hsm, hw, h1, pyTitle_taxons w hw]
      rw [hps]
  · intro hno
    have hnm : pyTitle s ∉ TAXONS := by
      intro hmem
      exact hno (pyTitle s) hmem (by rw [asciiLowerStr_pyTitle s])
    simp [buildUrl, buildParams, hnm, pure, Except.pure, bind, Except.bind, Except.map]
  · intro t hat hlt
    have hpt : pyTitle t = pyTitle s := pyTitle_congr t s hlt
    unfold buildUrl
    have hps : buildParams { taxon := some t } = buildParams { taxon := some s } := by
      simp [buildParams, hpt]
    rw [hps]

/-- Witness for C4: `"fungi"` and `"Fungi"` build identical URLs;
`"inexistente"` fails. -/
theorem claim_C4_witness :
    allAscii "fungi" = true ∧ "Fungi" ∈ TAXONS ∧
    asciiLowerStr "fungi" = asciiLowerStr "Fungi" ∧
    buildUrl { taxon := some "fungi" } = buildUrl { taxon := some "Fungi" } ∧
    allAscii "inexistente" = true ∧
    buildUrl { taxon := some "inexistente" } = .error "Not a valid taxonomy" :=
  ⟨by decide, by decide, by decide,
    ((claim_C4_taxon_vocabulary "fungi" (by decide)).1 "Fungi" (by decide)
      (by decide)).2.2,
    by decide,
    (claim_C4_taxon_vocabulary "inexistente" (by decide)).2.1 (by decide)⟩

/-! ## Paging-loop lemmas (claims C1, C2, C3) -/

theorem sumLens_append {α : Type} (l1 l2 : List (List α)) :
    sumLens (l1 ++ l2) = sumLens l1 + sumLens l2 := by
  simp [sumLens]

theorem sumLens_concat {α : Type} (l : List (List α)) (x : List α) :
    sumLens (l ++ [x]) = sumLens l + x.length := by
  simp [sumLens]

theorem sum_map_eq_mul {α : Type} (l : List α) (g : α → Nat) (n : Nat)
    (h : ∀ x ∈ l, g x = n) : (l.map g).sum = l.length * n := by
  induction l with
  | nil => simp
  | cons x xs ih =>
    simp only [List.map_cons, List.sum_cons, List.length_cons]
    rw [h x (by simp), ih (fun y hy => h y (by simp [hy]))]
    ring

/-- Closed form of the paging loop when every page it can reach (pages
`pageNum..needed`) is full (exactly 200 records) and no `num_max` is set:
the loop collects pages until `all_results` holds `needed` pages, logging
one progress line of `200·p` records per page, and requests exactly pages
`pageNum..needed`. -/
theorem pagesLoop_full {α : Type} (server : Nat → Option (ApiPage α))
    (content : Nat → List α) (needed : Nat) (hneed : needed ≤ 50)
    (hfull : ∀ p, 2 ≤ p → p ≤ needed →
      ∃ t, server p = some ⟨content p, t⟩ ∧ (content p).length = 200) :
    ∀ (fuel pageNum : Nat) (st : FetchState α),
      pageNum + fuel = 51 → 2 ≤ pageNum → pageNum ≤ needed + 1 →
      st.pages.length + 1 = pageNum →
      sumLens st.pages = 200 * st.pages.length →
      pagesLoop server needed none false fuel pageNum st =
        ⟨st.pages ++ (List.range' pageNum (needed + 1 - pageNum)).map content,
         st.log ++ (List.range' pageNum (needed + 1 - pageNum)).map
           (fun p => progressMsg (200 * p)),
         st.requested ++ List.range' pageNum (needed + 1 - pageNum)⟩ := by
  intro fuel
  induction fuel with
  | zero =>
    intro pageNum st hlink h2 hle hlen hsum
    have h0 : needed + 1 - pageNum = 0 := by omega
    have hng : ¬(st.pages.length < needed ∧ pageNum ≤ 50) := by omega
    simp [pagesLoop, h0]
  | succ fuel ih =>
    intro pageNum st hlink h2 hle hlen hsum
    by_cases hcase : pageNum ≤ needed
    · obtain ⟨t, hsrv, hlen200⟩ := hfull pageNum h2 hcase
      have hguard : st.pages.length < needed ∧ pageNum ≤ 50 := by
        constructor <;> omega
      have hnemp : (content pageNum).isEmpty = false := by
        cases hcp : content pageNum with
        | nil => rw [hcp] at hlen200; simp at hlen200
        | cons a l => rfl
      rw [pagesLoop, if_pos hguard, hsrv]
      simp only [hnemp, Bool.false_eq_true, if_false]
      have hnshort : ¬((content pageNum).length < 200) := by omega
      have hsum2 : sumLens (st.pages ++ [content pageNum]) = 200 * pageNum := by
        rw [sumLens_concat, hsum, hlen200]
        omega
      have hncap : ¬(numMaxTruthy none = true ∧
          (none : Option Nat).getD 0 ≤ sumLens (st.pages ++ [content pageNum])) := by
        simp [numMaxTruthy]
      simp only [hnshort, if_false, hncap]
      rw [ih (pageNum + 1)
        ⟨st.pages ++ [content pageNum],
         st.log ++ [progressMsg (sumLens (st.pages ++ [content pageNum]))],
         st.requested ++ [pageNum]⟩
        (by omega) (by omega) (by omega)
        (by simp; omega)
        (by rw [sumLens_concat, hsum, hlen200]; simp; omega)]
      have hrange : List.range' pageNum (needed + 1 - pageNum) =
          pageNum :: List.range' (pageNum + 1) (needed - pageNum) := by
        have : needed + 1 - pageNum = (needed - pageNum) + 1 := by omega
        rw [this, List.range'_succ]
      rw [hrange]
      have harith : needed + 1 - (pageNum + 1) = needed - pageNum := by omega
      rw [harith, hsum2]
      simp only [List.map_cons]
      simp only [List.append_nil, List.nil_append, List.append_assoc,
        List.singleton_append]
    · have hpn : pageNum = needed + 1 := by omega
      have hng : ¬(st.pages.length < needed ∧ pageNum ≤ 50) := by omega
      have h0 : needed + 1 - pageNum = 0 := by omega
      rw [pagesLoop, if_neg hng]
      simp [h0]

/-- Run of `_request` when every sequentially requested page is full (200
records) and the reported total implies at least 50 pages: pages 1–50 are
requested, 10 000 records returned, and the log holds exactly the
per-page progress counts. -/
theorem requestRun_full_pages {α β : Type} (f : α → β)
    (server : Nat → Option (ApiPage α)) (content : Nat → List α)
    (tr : Nat → Option Nat) (T : Nat) (hT : 9801 ≤ T)
    (h1 : server 1 = some ⟨content 1, some T⟩)
    (hp : ∀ p, 2 ≤ p → p ≤ 50 → server p = some ⟨content p, tr p⟩)
    (hfull : ∀ p, 1 ≤ p → p ≤ 50 → (content p).length = 200) :
    runResults (requestRun f server none) =
      ((List.range' 1 50).map content).flatten.map f ∧
    (runResults (requestRun f server none)).length = 10000 ∧
    runRequested (requestRun f server none) = List.range' 1 50 ∧
    51 ∉ runRequested (requestRun f server none) ∧
    runLog (requestRun f server none) =
      (List.range' 2 49).map (fun p => progressMsg (200 * p)) ∧
    (∀ e ∈ runLog (requestRun f server none), ∃ n, e = progressMsg n) := by
  have hf1 : (content 1).length = 200 := hfull 1 (by omega) (by omega)
  have hfull2 : ∀ p, 2 ≤ p → p ≤ 50 →
      ∃ t, server p = some ⟨content p, t⟩ ∧ (content p).length = 200 := by
    intro p h2 h50
    exact ⟨tr p, hp p h2 h50, hfull p (by omega) h50⟩
  have hstate := pagesLoop_full server content 50 (by omega) hfull2 49 2
    ⟨[content 1], [], [1]⟩ (by omega) (by omega) (by omega)
    (by simp) (by simp [sumLens, hf1])
  norm_num at hstate
  have h50 : 50 ≤ (T + 199) / 200 := by omega
  have hmin : min 50 ((T + 199) / 200) = 50 := Nat.min_eq_left h50
  have hrange : List.range' 1 50 = 1 :: List.range' 2 49 := by
    rw [show (50 : Nat) = 49 + 1 from rfl, List.range'_succ]
  have hrun : requestRun f server none =
      .ok ⟨((content 1 :: (List.range' 2 49).map content).flatten.map f),
           (List.range' 2 49).map (fun p => progressMsg (200 * p)),
           1 :: List.range' 2 49,
           content 1 :: (List.range' 2 49).map content⟩ := by
    rw [requestRun, h1]
    simp only [numMaxTruthy, Bool.false_eq_true, if_false, Option.getD, hmin]
    rw [if_neg (by simp [hf1])]
    rw [hstate]
    simp
  have hlensum : ((content 1 :: (List.range' 2 49).map content).flatten.map f).length
      = 10000 := by
    rw [List.length_map, List.length_flatten]
    simp only [List.map_cons, List.map_map]
    rw [List.sum_cons]
    have hsum49 : ((List.range' 2 49).map (List.length ∘ content)).sum = 49 * 200 := by
      rw [show List.map (List.length ∘ content) (List.range' 2 49) =
          (List.range' 2 49).map (fun p => (content p).length) from rfl]
      rw [sum_map_eq_mul _ _ 200 ?_, List.length_range']
      intro p hpmem
      rw [List.mem_range'] at hpmem
      obtain ⟨i, hi, hpe⟩ := hpmem
      exact hfull p (by omega) (by omega)
    rw [hsum49, hf1]
  refine ⟨?_, ?_, ?_, ?_, ?_, ?_⟩
  · rw [hrun]
    show (content 1 :: (List.range' 2 49).map content).flatten.map f =
      ((List.range' 1 50).map content).flatten.map f
    rw [hrange]
    simp
  · rw [hrun]
    exact hlensum
  · rw [hrun]
    show 1 :: List.range' 2 49 = List.range' 1 50
    rw [hrange]
  · rw [hrun]
    show 51 ∉ 1 :: List.range' 2 49
    intro hmem
    simp only [List.mem_cons, List.mem_range'] at hmem
    rcases hmem with h | ⟨i, hi, he⟩ <;> omega
  · rw [hrun]
    rfl
  · rw [hrun]
    intro e he
    show ∃ n, e = progressMsg n
    simp only [runLog] at he
    rw [List.mem_map] at he
    obtain ⟨p, hpm, hpe⟩ := he
    exact ⟨200 * p, hpe.symm⟩

/-- Claim C2 (amended): when 49 consecutive full (200-record) pages follow
a full first page with no shorter terminal page (and the reported total
implies at least 50 pages), sequential pagination stops at the hard
ceiling having requested exactly pages 1–50 — page 51 is never fetched —
and the returned collection holds exactly 10 000 records (the ceiling's
maximum: the first page plus 49 loop pages).  No truncation warning is
emitted: the only user-visible output is the per-page progress counts
`"Number of elements: n"`. -/
theorem claim_C2_page_ceiling {α β : Type} (f : α → β)
    (server : Nat → Option (ApiPage α)) (content : Nat → List α)
    (tr : Nat → Option Nat) (T : Nat) (hT : 9801 ≤ T)
    (h1 : server 1 = some ⟨content 1, some T⟩)
    (hp : ∀ p, 2 ≤ p → p ≤ 50 → server p = some ⟨content p, tr p⟩)
    (hfull : ∀ p, 1 ≤ p → p ≤ 50 → (content p).length = 200) :
    (runResults (requestRun f server none)).length = 10000 ∧
    runRequested (requestRun f server none) = List.range' 1 50 ∧
    51 ∉ runRequested (requestRun f server none) ∧
    runLog (requestRun f server none) =
      (List.range' 2 49).map (fun p => progressMsg (200 * p)) ∧
    (∀ e ∈ runLog (requestRun f server none), ∃ n, e = progressMsg n) := by
  have h := requestRun_full_pages f server content tr T hT h1 hp hfull
  exact ⟨h.2.1, h.2.2.1, h.2.2.2.1, h.2.2.2.2.1, h.2.2.2.2.2⟩

/-- Counterexample for claim C2 as stated: in the concrete all-full-pages
run the returned collection holds 10 000 records and the emitted output
is exactly the list of per-page progress counts — every log line is a
`"Number of elements: n"` message, so no truncation warning is emitted,
refuting the claim's warning conjunct. -/
theorem claim_C2_counterexample :
    (runResults (requestRun (fun x : Nat => x) c2Server none)).length = 10000 ∧
    runLog (requestRun (fun x : Nat => x) c2Server none) =
      (List.range' 2 49).map (fun p => progressMsg (200 * p)) ∧
    (∀ e ∈ runLog (requestRun (fun x : Nat => x) c2Server none),
      ∃ n, e = progressMsg n) := by
  have h := requestRun_full_pages (fun x : Nat => x) c2Server
    (fun _ => List.replicate 200 0) (fun _ => some 20000) 20000 (by omega)
    rfl (fun p _ _ => rfl) (fun p _ _ => by rw [List.length_replicate])
  exact ⟨h.2.1, h.2.2.2.2.1, h.2.2.2.2.2⟩

/-- Witness for C2 at the concrete all-full-pages server. -/
theorem claim_C2_page_ceiling_witness :
    (9801 ≤ 20000) ∧
    (runResults (requestRun (fun x : Nat => x) c2Server none)).length = 10000 ∧
    51 ∉ runRequested (requestRun (fun x : Nat => x) c2Server none) :=
  ⟨by omega,
    (claim_C2_page_ceiling (fun x : Nat => x) c2Server
      (fun _ => List.replicate 200 0) (fun _ => some 20000) 20000 (by omega)
      rfl (fun p _ _ => rfl) (fun p _ _ => by rw [List.length_replicate])).1,
    (claim_C2_page_ceiling (fun x : Nat => x) c2Server
      (fun _ => List.replicate 200 0) (fun _ => some 20000) 20000 (by omega)
      rfl (fun p _ _ => rfl) (fun p _ _ => by rw [List.length_replicate])).2.2.1⟩

set_option maxRecDepth 8000 in
set_option maxHeartbeats 2000000 in
/-- Claim C6 evaluated on the code: for a raw observation with
identifications by `ana` and `bob`, the normalizer stores the
comma-joined string under the dict key `identifiers`, but the pydantic
`Observation` model declares `identificators` (and no `identifiers`), so
`Observation(**data)` silently drops the value: the canonical record's
`identificators` is `None` and it carries no identifiers value at all.
`get_dfs` itself expects `identifiers` and `device` columns (they are in
its desired and empty-schema column lists), which the model can never
supply — the model field name is a slip. -/
theorem claim_C6_identifiers_dropped :
    (transformData c6Input).map (fun d => dictGet d "identifiers") =
      .ok (some (.str "ana, bob")) ∧
    (processObservationData c6Input).map (fun o => o.identificators) = .ok none ∧
    (processObservationData c6Input).map (fun o => o.id) = .ok 7 ∧
    (transformData c6EmptyInput).map (fun d => dictGet d "identifiers") =
      .ok none ∧
    "identificators" ∈ observationModelFields ∧
    "identifiers" ∉ observationModelFields ∧
    "device" ∉ observationModelFields ∧
    "identifiers" ∈ desiredColumns ∧ "device" ∈ desiredColumns ∧
    "identifiers" ∈ emptyObsColumns ∧ "device" ∈ emptyObsColumns :=
  ⟨rfl, rfl, rfl, rfl, by decide, by decide, by decide, by decide, by decide,
    by decide, by decide⟩
